import Mathlib

/-!
Shallow embedding of the `better-auth-custom-credentials` sign-in plugin.

The embedding covers:
* the cookie serializer `serializeCookie` (src/unnamed/part_008, `cookies.ts`);
* the request-body extractor `parseBody` (src/src/server.ts, lines 82-134);
* the sign-in request handler of `credentialsPlugin` (src/src/server.ts,
  lines 136-271), with its duplicate-key retry loop and session establishment,
  modelled as a pure function from an explicit store environment to a
  response paired with a trace of store effects;
* the legacy cookie-emission step of the handler variant in
  src/unnamed/part_007 (lines 204-211), which overlays `maxAge`/`expires`/
  `sameSite` on the framework-provided cookie attributes.

JavaScript runtime primitives (`Date`, `JSON.parse`, `URLSearchParams`,
`encodeURIComponent`) are modelled explicitly where their behaviour matters
and abstractly (as data supplied by the environment) where it does not.
-/

/-- `listStarts p l` holds when `p` is an initial segment of `l`
(`String.prototype.startsWith` on character lists). -/
def listStarts [BEq α] : List α → List α → Bool
  | [], _ => true
  | _ :: _, [] => false
  | a :: as, b :: bs => a == b && listStarts as bs

/-- `listHasSub needle hay`: `needle` occurs contiguously inside `hay`
(`String.prototype.includes` on character lists). -/
def listHasSub [BEq α] (needle : List α) : List α → Bool
  | [] => needle.isEmpty
  | a :: tl => listStarts needle (a :: tl) || listHasSub needle tl

/-- JS `s.startsWith(pre)`. -/
def strStarts (pre s : String) : Bool := listStarts pre.data s.data

/-- JS `hay.includes(needle)`. -/
def strHasSub (hay needle : String) : Bool := listHasSub needle.data hay.data

/-- Upper-case hexadecimal digit, as produced by percent-encoding. -/
def hexDigit (n : Nat) : Char :=
  if n < 10 then Char.ofNat (48 + n) else Char.ofNat (55 + n)

/-- UTF-8 bytes of a code point, used by `encodeURIComponent`. -/
def utf8Bytes (n : Nat) : List Nat :=
  if n < 0x80 then [n]
  else if n < 0x800 then [0xC0 + n / 0x40, 0x80 + n % 0x40]
  else if n < 0x10000 then
    [0xE0 + n / 0x1000, 0x80 + (n / 0x40) % 0x40, 0x80 + n % 0x40]
  else
    [0xF0 + n / 0x40000, 0x80 + (n / 0x1000) % 0x40,
     0x80 + (n / 0x40) % 0x40, 0x80 + n % 0x40]

/-- Characters `encodeURIComponent` leaves untouched. -/
def isUriUnreserved (c : Char) : Bool :=
  (('A' ≤ c && c ≤ 'Z') || ('a' ≤ c && c ≤ 'z') || ('0' ≤ c && c ≤ '9')
    || c == '-' || c == '_' || c == '.' || c == '!' || c == '~' || c == '*'
    || c == '\'' || c == '(' || c == ')')

/-- JS `encodeURIComponent`: unreserved characters pass through, all others
are percent-encoded byte-wise in UTF-8. -/
def encodeURIComponent (s : String) : String :=
  String.mk (s.data.flatMap fun c =>
    if isUriUnreserved c then [c]
    else (utf8Bytes c.toNat).flatMap fun b => ['%', hexDigit (b / 16), hexDigit (b % 16)])

/-- Model of a JS `Date` value: its epoch-milliseconds and the string the
runtime's `toUTCString()` renders for it. -/
structure JSDate where
  epochMs : Int
  utc : String
  deriving Repr, DecidableEq

/-- `SameSite` policy values accepted by `CookieAttrs` (cookies.ts). -/
inductive SameSite where
  | lax
  | strict
  | noneMode
  deriving Repr, DecidableEq

/-- Cookie attributes (`CookieAttrs` in cookies.ts).  Optional JS fields are
`Option`; boolean flags absent in JS behave as `false`, so they are plain
`Bool`. -/
structure CookieAttrs where
  httpOnly : Bool := false
  secure : Bool := false
  sameSite : Option SameSite := Option.none
  path : Option String := Option.none
  domain : Option String := Option.none
  maxAge : Option Int := Option.none
  expires : Option JSDate := Option.none
  deriving Repr, DecidableEq

/-- JS truthiness of an optional string: `undefined`/`null` and `""` are
falsy. -/
def strFalsy : Option String → Bool
  | Option.none => true
  | Option.some s => s == ""

/-- The attribute parts pushed onto `parts` by `serializeCookie`
(cookies.ts lines 18-34), in source order.  Each conditional `parts.push`
becomes a conditional singleton append.  `Math.floor` on the (integral)
`maxAge` is the identity. -/
def cookieAttrParts (attrs : CookieAttrs) : List String :=
  (match attrs.maxAge with
    | Option.some v => ["Max-Age=" ++ toString v]
    | Option.none => [])
  ++ (match attrs.expires with
    | Option.some d => ["Expires=" ++ d.utc]
    | Option.none => [])
  ++ (match attrs.domain with
    | Option.some d => if d == "" then [] else ["Domain=" ++ d]
    | Option.none => [])
  ++ ["Path=" ++ attrs.path.getD "/"]
  ++ (if attrs.secure then ["Secure"] else [])
  ++ (if attrs.httpOnly then ["HttpOnly"] else [])
  ++ (match attrs.sameSite with
    | Option.some SameSite.lax => ["SameSite=Lax"]
    | Option.some SameSite.strict => ["SameSite=Strict"]
    | Option.some SameSite.noneMode => ["SameSite=None"]
    | Option.none => [])

/-- `serializeCookie` (cookies.ts lines 11-37): the `name=value` pair
followed by the attribute parts, joined with `"; "`. -/
def serializeCookie (name value : String) (attrs : CookieAttrs) : String :=
  String.intercalate "; " ((name ++ "=" ++ encodeURIComponent value) :: cookieAttrParts attrs)


/-- JS whitespace as used by `String.prototype.trim` (ASCII subset). -/
def jsIsWhite (c : Char) : Bool :=
  c == ' ' || c == '\t' || c == '\n' || c == '\r' || c == '\x0b' || c == '\x0c'

/-- JS `String.prototype.trim`: strip leading and trailing whitespace. -/
def jsTrim (s : String) : String :=
  String.mk (((s.data.dropWhile jsIsWhite).reverse.dropWhile jsIsWhite).reverse)

/-- JS `String.prototype.toLowerCase` (ASCII range, the one exercised by
content types and emails). -/
def jsToLowerChar (c : Char) : Char :=
  if 'A' ≤ c && c ≤ 'Z' then Char.ofNat (c.toNat + 32) else c

def jsToLower (s : String) : String := String.mk (s.data.map jsToLowerChar)

/-! ## Request-body extraction (src/src/server.ts, lines 82-134) -/

/-- The request data `parseBody` consults: the `content-type` header
(`none` models an absent header), the result of reading the body text
(`none` models a rejected `text()`/`json()` read), and whether a
`formData()` parse of a multipart body would succeed. -/
structure ReqBody where
  contentType : Option String
  rawText : Option String
  formDataOk : Bool
  deriving Repr, DecidableEq

/-- What `parseBody` returned: a successful `JSON.parse` of the body text,
the key/value pairs of a form-urlencoded body, the fields of a multipart
form, or the empty-object fallback `{}`. -/
inductive ParsedBody where
  | fromJson (text : String)
  | fromForm (text : String)
  | fromMultipart
  | emptyObj
  deriving Repr, DecidableEq

/-- `parseBody` (src/src/server.ts lines 87-132).  `jsonParses` models the
runtime `JSON.parse` success predicate (both the `clone().json()` and
`req.json()` attempts read the same bytes, so one success bit suffices).
Each failed attempt falls through exactly as the source's empty `catch`
blocks do, ending at the raw-text JSON fallback and finally `{}`. -/
def parseBody (jsonParses : String → Bool) (req : ReqBody) : ParsedBody :=
  let contentType := jsToLower (req.contentType.getD "")
  if strHasSub contentType "application/json"
      && (match req.rawText with
          | Option.some t => jsonParses t
          | Option.none => false) then
    ParsedBody.fromJson (req.rawText.getD "")
  else if strHasSub contentType "application/x-www-form-urlencoded"
      && req.rawText.isSome then
    ParsedBody.fromForm (req.rawText.getD "")
  else if strHasSub contentType "multipart/form-data" && req.formDataOk then
    ParsedBody.fromMultipart
  else
    match req.rawText with
    | Option.some t => if t != "" && jsonParses t then ParsedBody.fromJson t else ParsedBody.emptyObj
    | Option.none => ParsedBody.emptyObj

/-! ## Sign-in handler data model (src/src/server.ts) -/

/-- A user record as the handler consumes it (`{id, email}` are the only
fields it reads; `String(user.id)` is the identity on the string model). -/
structure UserRecord where
  id : String
  email : String
  deriving Repr, DecidableEq

/-- A thrown store error, as inspected by `isUniqueViolation`:
an optional `code` and an optional `message`. -/
structure JSError where
  code : Option String
  message : Option String
  deriving Repr, DecidableEq

/-- The session row returned by `internalAdapter.createSession`; the handler
only inspects `created.id` (`none` and `""` are both JS-falsy). -/
structure SessionResult where
  id : Option String
  token : Option String
  deriving Repr, DecidableEq

/-- The operator verifier's resolved value (`VerifyResult` in server.ts):
`verified` carries `user.email` (`none` models a missing field), `user.name`
and `user.id`; `rejected` carries the optional `reason` and `code`. -/
inductive VerifyResult where
  | verified (email : Option String) (name : Option String) (uid : Option String)
  | rejected (reason : Option String) (code : Option String)
  deriving Repr, DecidableEq

/-- Structured field errors of `parsed.error.flatten()`. -/
structure SchemaFail where
  fieldErrors : List (String × List String)
  deriving Repr, DecidableEq

/-- The validated input the handler reads: the `rememberMe` flag (checked
with `=== true`) plus the remaining, opaque fields. -/
structure InputData where
  rememberMe : Option Bool
  rest : List (String × String)
  deriving Repr, DecidableEq

/-- Opaque extra session data returned by the `onSessionData` hook. -/
def SessionData := List (String × String)
deriving instance Repr, DecidableEq for SessionData

/-- Plugin options the handler closes over (server.ts lines 60-65):
`sessionExpiresIn` and `autoSignUp` (`?? true`).  The schema and verifier
are opaque functions whose results are handler inputs; `onSessionData` is
modelled by its (optional) result. -/
structure Opts where
  sessionExpiresIn : Option Int
  autoSignUp : Option Bool
  onSessionData : Option SessionData
  deriving Repr, DecidableEq

/-- Request headers the handler reads (lines 238-242). -/
structure Headers where
  xForwardedFor : Option String
  cfConnectingIp : Option String
  userAgent : Option String
  deriving Repr, DecidableEq

/-- The external-store environment of one request: the value of the `k`-th
`fetchUserByEmail` call (split into the `internalAdapter` result's `.user`
and the `adapter` fallback, joined by `??`), the outcome of
`internalAdapter.createUser` (`ok none` models a create that resolves to
`undefined`), the `createSession` row, and the request-time clock. -/
structure StoreEnv where
  internalLookup : Nat → Option UserRecord
  adapterLookup : Nat → Option UserRecord
  createUser : Except JSError (Option UserRecord)
  createSession : SessionResult
  now : Int

/-- `fetchUserByEmail` (lines 162-168): internal adapter first, plain
adapter as `??` fallback; `k` counts the calls made so far this request. -/
def fetchUserByEmail (env : StoreEnv) (k : Nat) : Option UserRecord :=
  (env.internalLookup k).or (env.adapterLookup k)

/-- One store side effect of the handler, in execution order. -/
inductive Effect where
  | userLookup (email : String)
  | delayMs (ms : Nat)
  | userCreate (email : String) (name : String) (emailVerified : Bool)
  | sessionCreate (userId : String) (dontRememberMe : Bool) (expiresAt : Int)
      (ipAddress : Option String) (userAgent : Option String) (extra : Option SessionData)
  | setCookie
  deriving Repr, DecidableEq

/-- The handler's outcome: a 200 `{ok: true, userId}` JSON body, or a thrown
`APIError` with its HTTP status (400/401/500 per better-auth's status map),
message, optional `code`, and optional structured `cause`. -/
inductive HRes where
  | ok (userId : String)
  | err (status : Nat) (message : String) (code : Option String) (cause : Option SchemaFail)
  deriving Repr, DecidableEq

/-- HTTP status of a handler outcome (200 on the success body). -/
def statusOf : HRes → Nat
  | HRes.ok _ => 200
  | HRes.err s _ _ _ => s

/-- `isUniqueViolation` (server.ts lines 178-186). -/
def isUniqueViolation (err : JSError) : Bool :=
  err.code == Option.some "23505"
    || (match err.message with
        | Option.some m =>
            strHasSub m "duplicate key value" || strHasSub m "UNIQUE constraint failed"
        | Option.none => false)

/-! ## The sign-in handler (src/src/server.ts, lines 136-271) -/

/-- `expiresInSec` as the handler computes it (lines 222-226): the
configured override or the 7-day default; the `rememberMe` branch yields
the same value on both arms, exactly as in the source. -/
def computeExpiresInSec (opts : Opts) (input : InputData) : Int :=
  let defaultExpSec := opts.sessionExpiresIn.getD (60 * 60 * 24 * 7)
  let remember := input.rememberMe == Option.some true
  if remember then defaultExpSec else defaultExpSec

/-- Session establishment (lines 221-271): compute expiry, call
`createSession` (third argument `!remember`, data record carrying
`expiresAt`, `ipAddress`, `userAgent` and the spread hook result), fail with
500 on a falsy `created.id`, otherwise set the session cookie and answer
`{ok: true, userId}`. -/
def establishSession (opts : Opts) (env : StoreEnv) (hdrs : Headers)
    (input : InputData) (user : UserRecord) (effs : List Effect) : HRes × List Effect :=
  let defaultExpSec := opts.sessionExpiresIn.getD (60 * 60 * 24 * 7)
  let remember := input.rememberMe == Option.some true
  let expiresInSec := if remember then defaultExpSec else defaultExpSec
  let expiresAt := env.now + expiresInSec * 1000
  let sessionData := opts.onSessionData
  let ip := hdrs.xForwardedFor.or hdrs.cfConnectingIp
  let ua := hdrs.userAgent
  let created := env.createSession
  let effs := effs ++ [Effect.sessionCreate user.id (!remember) expiresAt ip ua sessionData]
  if strFalsy created.id then
    (HRes.err 500 "FAILED_TO_CREATE_SESSION" Option.none Option.none, effs)
  else
    (HRes.ok user.id, effs ++ [Effect.setCookie])

/-- The duplicate-key retry loop (lines 199-205): at most `fuel` (source: 3)
iterations, each a 50ms delay followed by a refetch, stopping as soon as a
user is found; `k` is the index of the next `fetchUserByEmail` call. -/
def retryFetch (env : StoreEnv) (email : String) : Nat → Nat → Option UserRecord × List Effect
  | 0, _ => (Option.none, [])
  | Nat.succ fuel, k =>
    match fetchUserByEmail env k with
    | Option.some u => (Option.some u, [Effect.delayMs 50, Effect.userLookup email])
    | Option.none =>
      let rest := retryFetch env email fuel (k + 1)
      (rest.1, [Effect.delayMs 50, Effect.userLookup email] ++ rest.2)

/-- `name` field of the `createUser` call (line 192):
`verifyRes.user.name ?? email.split('@')[0]`. -/
def userCreateName (nameOpt : Option String) (email : String) : String :=
  nameOpt.getD (String.mk (email.data.takeWhile (fun c => !(c == '@'))))

/-- The sign-in handler body (lines 136-271).  Inputs: the plugin options,
the store environment, the request headers, the schema validation outcome
(`inputSchema.safeParse(body)`), and the verifier's resolved value.
Returns the response (or thrown `APIError`) together with the ordered trace
of store effects. -/
def signInHandler (opts : Opts) (env : StoreEnv) (hdrs : Headers)
    (parsed : Except SchemaFail InputData) (verifyRes : VerifyResult) : HRes × List Effect :=
  match parsed with
  | Except.error e => (HRes.err 400 "INVALID_INPUT" Option.none (Option.some e), [])
  | Except.ok input =>
    match verifyRes with
    | VerifyResult.rejected reason code =>
        (HRes.err 401 (reason.getD "INVALID_CREDENTIALS")
          (Option.some (code.getD "INVALID_CREDENTIALS")) Option.none, [])
    | VerifyResult.verified rawEmail nameOpt _uid =>
        if strFalsy rawEmail then
          (HRes.err 400 "Verifier must return user.email" Option.none Option.none, [])
        else
          let email := jsToLower (jsTrim (rawEmail.getD ""))
          let eff0 : List Effect := [Effect.userLookup email]
          match fetchUserByEmail env 0 with
          | Option.some user => establishSession opts env hdrs input user eff0
          | Option.none =>
            if opts.autoSignUp.getD true = false then
              (HRes.err 401 "USER_NOT_FOUND" Option.none Option.none, eff0)
            else
              let createEff := Effect.userCreate email (userCreateName nameOpt email) true
              match env.createUser with
              | Except.ok (Option.some user) =>
                  establishSession opts env hdrs input user (eff0 ++ [createEff])
              | Except.ok Option.none =>
                  (HRes.err 500 "USER_CREATION_FAILED" Option.none Option.none,
                    eff0 ++ [createEff])
              | Except.error e =>
                  if isUniqueViolation e then
                    let retry := retryFetch env email 3 1
                    match retry.1 with
                    | Option.some user =>
                        establishSession opts env hdrs input user (eff0 ++ [createEff] ++ retry.2)
                    | Option.none =>
                        (HRes.err 500 "FAILED_TO_CREATE_USER" Option.none Option.none,
                          eff0 ++ [createEff] ++ retry.2)
                  else
                    (HRes.err 500 "FAILED_TO_CREATE_USER" Option.none Option.none,
                      eff0 ++ [createEff])

/-- The framework cookie configuration (`createAuthCookie('session_token')`
in the part_007 handler): a name and base attributes. -/
structure CookieCfg where
  name : String
  attributes : CookieAttrs
  deriving Repr, DecidableEq

/-- The attribute overlay of the part_007 handler's cookie emission (lines
205-211): the framework's base attributes with the computed `maxAge`,
`expires`, and a fixed `sameSite: 'lax'`. -/
def sessionCookieAttrs (cookieCfg : CookieCfg) (expiresInSec : Int)
    (expiresAt : JSDate) : CookieAttrs :=
  { cookieCfg.attributes with
      maxAge := Option.some expiresInSec
      expires := Option.some expiresAt
      sameSite := Option.some SameSite.lax }

/-- Cookie emission of the part_007 handler variant (lines 204-211). -/
def sessionCookieOf (cookieCfg : CookieCfg) (token : String)
    (expiresInSec : Int) (expiresAt : JSDate) : String :=
  serializeCookie cookieCfg.name token (sessionCookieAttrs cookieCfg expiresInSec expiresAt)

/-- Effect classifiers used to count store calls in a trace. -/
def isUserCreateEff : Effect → Bool
  | Effect.userCreate _ _ _ => true
  | _ => false

def isSessionCreateEff : Effect → Bool
  | Effect.sessionCreate _ _ _ _ _ _ => true
  | _ => false

def isUserLookupEff : Effect → Bool
  | Effect.userLookup _ => true
  | _ => false

def isDelayEff : Effect → Bool
  | Effect.delayMs _ => true
  | _ => false

/-! Concrete fixtures used by counterexamples and witnesses. -/

def optsBase : Opts :=
  { sessionExpiresIn := Option.none, autoSignUp := Option.none, onSessionData := Option.none }

def hdrsBase : Headers :=
  { xForwardedFor := Option.none, cfConnectingIp := Option.none, userAgent := Option.none }

def inputBase : InputData := { rememberMe := Option.none, rest := [] }

def userBase : UserRecord := { id := "1", email := "a@b.com" }

def envBase : StoreEnv :=
  { internalLookup := fun _ => Option.none
    adapterLookup := fun _ => Option.none
    createUser := Except.ok (Option.some userBase)
    createSession := { id := Option.some "s1", token := Option.some "tok" }
    now := 0 }

/-- A store environment whose session store answers with a `none` id. -/
def envBadSession : StoreEnv :=
  { envBase with createSession := { id := Option.none, token := Option.none } }

/-- Store environments exercising the three C2 branches. -/
def errUnique : JSError := { code := Option.some "23505", message := Option.none }

def errOther : JSError := { code := Option.none, message := Option.some "boom" }

def envCreateFail : StoreEnv := { envBase with createUser := Except.error errOther }

def envDupRaceLost : StoreEnv := { envBase with createUser := Except.error errUnique }

def envDupRaceFound : StoreEnv :=
  { envBase with
      createUser := Except.error errUnique
      internalLookup := fun k => if k == 2 then Option.some userBase else Option.none }

/-! ## String lemmas about `strStarts` and the cookie parts -/

theorem listStarts_self_append [BEq α] [LawfulBEq α] (p q : List α) :
    listStarts p (p ++ q) = true := by
  induction p with
  | nil => rfl
  | cons a as ih => simp [listStarts, ih]

theorem strStarts_self_append (p x : String) : strStarts p (p ++ x) = true := by
  have h : (p ++ x).data = p.data ++ x.data := rfl
  unfold strStarts
  rw [h]
  exact listStarts_self_append _ _

theorem listStarts_mismatch [BEq α] [LawfulBEq α] (p q x : List α)
    (h1 : listStarts p q = false) (h2 : listStarts q p = false) :
    listStarts p (q ++ x) = false := by
  induction p generalizing q with
  | nil => simp [listStarts] at h1
  | cons a as ih =>
    cases q with
    | nil => simp [listStarts] at h2
    | cons b bs =>
      by_cases hab : (a == b) = true
      · have hb : a = b := eq_of_beq hab
        subst hb
        simp [listStarts] at h1 h2
        simpa [listStarts] using ih bs h1 h2
      · have hf : (a == b) = false := by simpa using hab
        simp [listStarts, hf]

theorem strStarts_mismatch (p q x : String)
    (h1 : strStarts p q = false) (h2 : strStarts q p = false) :
    strStarts p (q ++ x) = false := by
  have h : (q ++ x).data = q.data ++ x.data := rfl
  unfold strStarts at h1 h2 ⊢
  rw [h]
  exact listStarts_mismatch _ _ _ h1 h2

theorem append_ne_lit (pre x lit : String) (h : strStarts pre lit = false) :
    ¬(pre ++ x = lit) := by
  intro he
  rw [← he, strStarts_self_append] at h
  exact Bool.true_eq_false.mp h

theorem append_beq_lit (pre x lit : String) (h : strStarts pre lit = false) :
    ((pre ++ x) == lit) = false := by
  simpa [beq_eq_false_iff_ne] using append_ne_lit pre x lit h

@[simp] theorem stMA_ex (x : String) : strStarts "Max-Age=" ("Expires=" ++ x) = false :=
  strStarts_mismatch _ _ _ (by decide) (by decide)
@[simp] theorem stMA_dom (x : String) : strStarts "Max-Age=" ("Domain=" ++ x) = false :=
  strStarts_mismatch _ _ _ (by decide) (by decide)
@[simp] theorem stMA_path (x : String) : strStarts "Max-Age=" ("Path=" ++ x) = false :=
  strStarts_mismatch _ _ _ (by decide) (by decide)
@[simp] theorem stEX_ma (x : String) : strStarts "Expires=" ("Max-Age=" ++ x) = false :=
  strStarts_mismatch _ _ _ (by decide) (by decide)
@[simp] theorem stEX_dom (x : String) : strStarts "Expires=" ("Domain=" ++ x) = false :=
  strStarts_mismatch _ _ _ (by decide) (by decide)
@[simp] theorem stEX_path (x : String) : strStarts "Expires=" ("Path=" ++ x) = false :=
  strStarts_mismatch _ _ _ (by decide) (by decide)
@[simp] theorem stDOM_ma (x : String) : strStarts "Domain=" ("Max-Age=" ++ x) = false :=
  strStarts_mismatch _ _ _ (by decide) (by decide)
@[simp] theorem stDOM_ex (x : String) : strStarts "Domain=" ("Expires=" ++ x) = false :=
  strStarts_mismatch _ _ _ (by decide) (by decide)
@[simp] theorem stDOM_path (x : String) : strStarts "Domain=" ("Path=" ++ x) = false :=
  strStarts_mismatch _ _ _ (by decide) (by decide)
@[simp] theorem stSS_ma (x : String) : strStarts "SameSite=" ("Max-Age=" ++ x) = false :=
  strStarts_mismatch _ _ _ (by decide) (by decide)
@[simp] theorem stSS_ex (x : String) : strStarts "SameSite=" ("Expires=" ++ x) = false :=
  strStarts_mismatch _ _ _ (by decide) (by decide)
@[simp] theorem stSS_dom (x : String) : strStarts "SameSite=" ("Domain=" ++ x) = false :=
  strStarts_mismatch _ _ _ (by decide) (by decide)
@[simp] theorem stSS_path (x : String) : strStarts "SameSite=" ("Path=" ++ x) = false :=
  strStarts_mismatch _ _ _ (by decide) (by decide)

@[simp] theorem beqMA_sec (x : String) : (("Max-Age=" ++ x) == "Secure") = false :=
  append_beq_lit _ _ _ (by decide)
@[simp] theorem beqMA_ho (x : String) : (("Max-Age=" ++ x) == "HttpOnly") = false :=
  append_beq_lit _ _ _ (by decide)
@[simp] theorem beqEX_sec (x : String) : (("Expires=" ++ x) == "Secure") = false :=
  append_beq_lit _ _ _ (by decide)
@[simp] theorem beqEX_ho (x : String) : (("Expires=" ++ x) == "HttpOnly") = false :=
  append_beq_lit _ _ _ (by decide)
@[simp] theorem beqDOM_sec (x : String) : (("Domain=" ++ x) == "Secure") = false :=
  append_beq_lit _ _ _ (by decide)
@[simp] theorem beqDOM_ho (x : String) : (("Domain=" ++ x) == "HttpOnly") = false :=
  append_beq_lit _ _ _ (by decide)
@[simp] theorem beqPATH_sec (x : String) : (("Path=" ++ x) == "Secure") = false :=
  append_beq_lit _ _ _ (by decide)
@[simp] theorem beqPATH_ho (x : String) : (("Path=" ++ x) == "HttpOnly") = false :=
  append_beq_lit _ _ _ (by decide)

@[simp] theorem eqMA_sec (x : String) : ("Max-Age=" ++ x = "Secure") ↔ False :=
  iff_false_intro (append_ne_lit _ _ _ (by decide))
@[simp] theorem eqMA_ho (x : String) : ("Max-Age=" ++ x = "HttpOnly") ↔ False :=
  iff_false_intro (append_ne_lit _ _ _ (by decide))
@[simp] theorem eqEX_sec (x : String) : ("Expires=" ++ x = "Secure") ↔ False :=
  iff_false_intro (append_ne_lit _ _ _ (by decide))
@[simp] theorem eqEX_ho (x : String) : ("Expires=" ++ x = "HttpOnly") ↔ False :=
  iff_false_intro (append_ne_lit _ _ _ (by decide))
@[simp] theorem eqDOM_sec (x : String) : ("Domain=" ++ x = "Secure") ↔ False :=
  iff_false_intro (append_ne_lit _ _ _ (by decide))
@[simp] theorem eqDOM_ho (x : String) : ("Domain=" ++ x = "HttpOnly") ↔ False :=
  iff_false_intro (append_ne_lit _ _ _ (by decide))
@[simp] theorem eqPATH_sec (x : String) : ("Path=" ++ x = "Secure") ↔ False :=
  iff_false_intro (append_ne_lit _ _ _ (by decide))
@[simp] theorem eqPATH_ho (x : String) : ("Path=" ++ x = "HttpOnly") ↔ False :=
  iff_false_intro (append_ne_lit _ _ _ (by decide))

@[simp] theorem stMA_sec : strStarts "Max-Age=" "Secure" = false := by rfl
@[simp] theorem stMA_hoL : strStarts "Max-Age=" "HttpOnly" = false := by rfl
@[simp] theorem stMA_ssl : strStarts "Max-Age=" "SameSite=Lax" = false := by rfl
@[simp] theorem stMA_sss : strStarts "Max-Age=" "SameSite=Strict" = false := by rfl
@[simp] theorem stMA_ssn : strStarts "Max-Age=" "SameSite=None" = false := by rfl
@[simp] theorem stEX_sec : strStarts "Expires=" "Secure" = false := by rfl
@[simp] theorem stEX_hoL : strStarts "Expires=" "HttpOnly" = false := by rfl
@[simp] theorem stEX_ssl : strStarts "Expires=" "SameSite=Lax" = false := by rfl
@[simp] theorem stEX_sss : strStarts "Expires=" "SameSite=Strict" = false := by rfl
@[simp] theorem stEX_ssn : strStarts "Expires=" "SameSite=None" = false := by rfl
@[simp] theorem stDOM_sec : strStarts "Domain=" "Secure" = false := by rfl
@[simp] theorem stDOM_hoL : strStarts "Domain=" "HttpOnly" = false := by rfl
@[simp] theorem stDOM_ssl : strStarts "Domain=" "SameSite=Lax" = false := by rfl
@[simp] theorem stDOM_sss : strStarts "Domain=" "SameSite=Strict" = false := by rfl
@[simp] theorem stDOM_ssn : strStarts "Domain=" "SameSite=None" = false := by rfl
@[simp] theorem stSS_sec : strStarts "SameSite=" "Secure" = false := by rfl
@[simp] theorem stSS_hoL : strStarts "SameSite=" "HttpOnly" = false := by rfl
@[simp] theorem stSS_ssl : strStarts "SameSite=" "SameSite=Lax" = true := by rfl
@[simp] theorem stSS_sss : strStarts "SameSite=" "SameSite=Strict" = true := by rfl
@[simp] theorem stSS_ssn : strStarts "SameSite=" "SameSite=None" = true := by rfl

theorem cookieParts_secure (a : CookieAttrs) :
    (cookieAttrParts a).any (fun s => s == "Secure") = a.secure := by
  rcases a with ⟨ho, se, ss, pa, dom, ma, ex⟩
  rcases ma with _ | v <;> rcases ex with _ | u <;> rcases dom with _ | d <;>
    rcases ss with _ | (_ | _ | _) <;> cases se <;> cases ho <;>
      simp [cookieAttrParts]

theorem cookieParts_httpOnly (a : CookieAttrs) :
    (cookieAttrParts a).any (fun s => s == "HttpOnly") = a.httpOnly := by
  rcases a with ⟨ho, se, ss, pa, dom, ma, ex⟩
  rcases ma with _ | v <;> rcases ex with _ | u <;> rcases dom with _ | d <;>
    rcases ss with _ | (_ | _ | _) <;> cases se <;> cases ho <;>
      simp [cookieAttrParts]

theorem cookieParts_maxAge (a : CookieAttrs) :
    (cookieAttrParts a).any (strStarts "Max-Age=") = a.maxAge.isSome := by
  rcases a with ⟨ho, se, ss, pa, dom, ma, ex⟩
  rcases ma with _ | v <;> rcases ex with _ | u <;> rcases dom with _ | d <;>
    rcases ss with _ | (_ | _ | _) <;> cases se <;> cases ho <;>
      simp [cookieAttrParts, strStarts_self_append]

theorem cookieParts_expires (a : CookieAttrs) :
    (cookieAttrParts a).any (strStarts "Expires=") = a.expires.isSome := by
  rcases a with ⟨ho, se, ss, pa, dom, ma, ex⟩
  rcases ma with _ | v <;> rcases ex with _ | u <;> rcases dom with _ | d <;>
    rcases ss with _ | (_ | _ | _) <;> cases se <;> cases ho <;>
      simp [cookieAttrParts, strStarts_self_append]

theorem cookieParts_domain (a : CookieAttrs) :
    (cookieAttrParts a).any (strStarts "Domain=") = !strFalsy a.domain := by
  rcases a with ⟨ho, se, ss, pa, dom, ma, ex⟩
  rcases ma with _ | v <;> rcases ex with _ | u <;> rcases dom with _ | d <;>
    rcases ss with _ | (_ | _ | _) <;> cases se <;> cases ho <;>
      simp [cookieAttrParts, strFalsy, strStarts_self_append] <;>
        (by_cases hd : d = "" <;> simp [hd, strStarts_self_append])

theorem cookieParts_sameSite (a : CookieAttrs) :
    (cookieAttrParts a).any (strStarts "SameSite=") = a.sameSite.isSome := by
  rcases a with ⟨ho, se, ss, pa, dom, ma, ex⟩
  rcases ma with _ | v <;> rcases ex with _ | u <;> rcases dom with _ | d <;>
    rcases ss with _ | (_ | _ | _) <;> cases se <;> cases ho <;>
      simp [cookieAttrParts]

/-! ## Claim theorems -/

/-- C6: `serializeCookie` on `{httpOnly: true, secure: true, sameSite: 'lax',
domain: 'example.com', path: '/auth', maxAge: 3600, expires: <date>}` yields
exactly the parts `Max-Age=3600`, the `Expires=` RFC date, `Domain=example.com`,
`Path=/auth`, `Secure`, `HttpOnly`, `SameSite=Lax` (after the `name=value`
pair); and for every attribute set, each attribute-flag that is not set is
omitted: `Secure`/`HttpOnly` parts appear iff the flags are set, and
`Max-Age=`/`Expires=`/`Domain=`/`SameSite=` parts appear iff the
corresponding attribute is present (non-falsy, for `domain`). -/
theorem C6_serializeCookie_parts :
    (serializeCookie "session" "abc"
        { httpOnly := true, secure := true, sameSite := Option.some SameSite.lax,
          domain := Option.some "example.com", path := Option.some "/auth",
          maxAge := Option.some 3600,
          expires := Option.some { epochMs := 0, utc := "Thu, 01 Jan 1970 00:00:00 GMT" } } =
      "session=abc; Max-Age=3600; Expires=Thu, 01 Jan 1970 00:00:00 GMT; Domain=example.com; Path=/auth; Secure; HttpOnly; SameSite=Lax")
    ∧ ∀ a : CookieAttrs,
        ((cookieAttrParts a).any (fun s => s == "Secure") = a.secure)
        ∧ ((cookieAttrParts a).any (fun s => s == "HttpOnly") = a.httpOnly)
        ∧ ((cookieAttrParts a).any (strStarts "Max-Age=") = a.maxAge.isSome)
        ∧ ((cookieAttrParts a).any (strStarts "Expires=") = a.expires.isSome)
        ∧ ((cookieAttrParts a).any (strStarts "Domain=") = !strFalsy a.domain)
        ∧ ((cookieAttrParts a).any (strStarts "SameSite=") = a.sameSite.isSome) :=
  ⟨by rfl, fun a =>
    ⟨cookieParts_secure a, cookieParts_httpOnly a, cookieParts_maxAge a,
     cookieParts_expires a, cookieParts_domain a, cookieParts_sameSite a⟩⟩

/-- C8: a `Rejected` verifier result makes the handler fail 401 with the
operator-supplied reason as message and the operator-supplied code (each
defaulting to `INVALID_CREDENTIALS`), with an empty store-effect trace (no
user-store or session-store reads or writes). -/
theorem C8_rejected_401 (opts : Opts) (env : StoreEnv) (hdrs : Headers)
    (input : InputData) (reason code : Option String) :
    signInHandler opts env hdrs (Except.ok input) (VerifyResult.rejected reason code) =
      (HRes.err 401 (reason.getD "INVALID_CREDENTIALS")
        (Option.some (code.getD "INVALID_CREDENTIALS")) Option.none, []) := rfl

/-- C9: a request body that fails schema validation makes the handler fail
400 with message `INVALID_INPUT` carrying the structured field-level
violations, and the store-effect trace is empty (no lookup, create, or
session write). -/
theorem C9_invalid_input_400 (opts : Opts) (env : StoreEnv) (hdrs : Headers)
    (e : SchemaFail) (verifyRes : VerifyResult) :
    signInHandler opts env hdrs (Except.error e) verifyRes =
      (HRes.err 400 "INVALID_INPUT" Option.none (Option.some e), []) := rfl

/-- C4 counterexample: a `multipart/form-data` content type — not among the
claim's two recognized types, hence covered by its "any unrecognized or
absent content-type" clause — with a well-formed form body whose raw text
would even JSON-parse, is extracted as the multipart form-field mapping,
not as the claimed last-resort JSON parse of the raw text and not as the
empty mapping. -/
theorem C4_multipart_counterexample :
    parseBody (fun s => s == "{}")
        { contentType := Option.some "multipart/form-data",
          rawText := Option.some "{}", formDataOk := true } = ParsedBody.fromMultipart
    ∧ ParsedBody.fromMultipart ≠ ParsedBody.fromJson "{}"
    ∧ ParsedBody.fromMultipart ≠ ParsedBody.emptyObj := by
  refine ⟨rfl, ?_, ?_⟩ <;> decide

/-- C4 (amended): body extraction is a total function (never throws) and
dispatches on the content type: a type containing `application/json` whose
text parses is returned as parsed JSON; a type containing
`application/x-www-form-urlencoded` (and not the JSON branch) is returned as
form key/value pairs; a type containing `multipart/form-data` (and neither
earlier branch) with a well-formed form body is returned as its multipart
form fields; and only with none of the three recognized content types is the
raw text JSON-parsed as a last resort, yielding the empty mapping when that
fails. -/
theorem C4_parseBody_dispatch (jsonParses : String → Bool) (req : ReqBody) (t : String) :
    ((strHasSub (jsToLower (req.contentType.getD "")) "application/json" = true →
        req.rawText = Option.some t → jsonParses t = true →
        parseBody jsonParses req = ParsedBody.fromJson t)
      ∧ (strHasSub (jsToLower (req.contentType.getD "")) "application/json" = false →
          strHasSub (jsToLower (req.contentType.getD "")) "application/x-www-form-urlencoded" = true →
          req.rawText = Option.some t →
          parseBody jsonParses req = ParsedBody.fromForm t)
      ∧ (strHasSub (jsToLower (req.contentType.getD "")) "application/json" = false →
          strHasSub (jsToLower (req.contentType.getD "")) "application/x-www-form-urlencoded" = false →
          strHasSub (jsToLower (req.contentType.getD "")) "multipart/form-data" = true →
          req.formDataOk = true →
          parseBody jsonParses req = ParsedBody.fromMultipart)
      ∧ (strHasSub (jsToLower (req.contentType.getD "")) "application/json" = false →
          strHasSub (jsToLower (req.contentType.getD "")) "application/x-www-form-urlencoded" = false →
          strHasSub (jsToLower (req.contentType.getD "")) "multipart/form-data" = false →
          parseBody jsonParses req =
            (match req.rawText with
              | Option.some u =>
                  if u != "" && jsonParses u then ParsedBody.fromJson u else ParsedBody.emptyObj
              | Option.none => ParsedBody.emptyObj))) := by
  refine ⟨?_, ?_, ?_, ?_⟩
  · intro hct hraw hjson
    simp [parseBody, hct, hraw, hjson]
  · intro hct hform hraw
    simp [parseBody, hct, hform, hraw]
  · intro hct hform hmulti hfd
    simp [parseBody, hct, hform, hmulti, hfd]
  · intro hct hform hmulti
    simp [parseBody, hct, hform, hmulti]

/-- Closed instantiation of the amended C4: a JSON body parses, a form body
yields pairs, a multipart body yields its form fields, and an unrecognized
content type falls back to `{}` on unparsable text. -/
theorem C4_parseBody_dispatch_witness :
    parseBody (fun s => s == "{}")
        { contentType := Option.some "application/json",
          rawText := Option.some "{}", formDataOk := false } = ParsedBody.fromJson "{}"
    ∧ parseBody (fun s => s == "{}")
        { contentType := Option.some "application/x-www-form-urlencoded",
          rawText := Option.some "a=b", formDataOk := false } = ParsedBody.fromForm "a=b"
    ∧ parseBody (fun s => s == "{}")
        { contentType := Option.some "multipart/form-data",
          rawText := Option.some "xx", formDataOk := true } = ParsedBody.fromMultipart
    ∧ parseBody (fun s => s == "{}")
        { contentType := Option.none,
          rawText := Option.some "xx", formDataOk := false } = ParsedBody.emptyObj :=
  ⟨(C4_parseBody_dispatch (fun s => s == "{}")
      { contentType := Option.some "application/json",
        rawText := Option.some "{}", formDataOk := false } "{}").1 (by rfl) rfl (by rfl),
   (C4_parseBody_dispatch (fun s => s == "{}")
      { contentType := Option.some "application/x-www-form-urlencoded",
        rawText := Option.some "a=b", formDataOk := false } "a=b").2.1 (by rfl) (by rfl) rfl,
   (C4_parseBody_dispatch (fun s => s == "{}")
      { contentType := Option.some "multipart/form-data",
        rawText := Option.some "xx", formDataOk := true } "").2.2.1
     (by rfl) (by rfl) (by rfl) rfl,
   (C4_parseBody_dispatch (fun s => s == "{}")
      { contentType := Option.none,
        rawText := Option.some "xx", formDataOk := false } "").2.2.2 (by rfl) (by rfl) (by rfl)⟩

/-- C3 counterexample: a whitespace-only `user.email` (`" "`), which is
empty after trimming, does NOT produce the 400 `Verifier must return
user.email` failure; the handler's falsiness guard passes it through, the
email normalizes to `""`, and a user-store lookup for `""` occurs —
contradicting the claim's "before any user-store lookup or write". -/
theorem C3_whitespace_email_counterexample :
    (jsTrim " " = "")
    ∧ (signInHandler optsBase envBase hdrsBase (Except.ok inputBase)
          (VerifyResult.verified (Option.some " ") Option.none Option.none)).1
        ≠ HRes.err 400 "Verifier must return user.email" Option.none Option.none
    ∧ Effect.userLookup "" ∈
        (signInHandler optsBase envBase hdrsBase (Except.ok inputBase)
          (VerifyResult.verified (Option.some " ") Option.none Option.none)).2 := by
  refine ⟨rfl, ?_, ?_⟩ <;> decide

/-- C3 (amended): for a `Verified` result whose `user.email` is missing or
the empty string (JS-falsy), the handler fails 400 with
`Verifier must return user.email` and an empty effect trace, before any
user-store lookup or write.  (Whitespace-only emails pass the falsiness
guard and proceed to the lookup — see the counterexample.) -/
theorem C3_falsy_email_400 (opts : Opts) (env : StoreEnv) (hdrs : Headers)
    (input : InputData) (rawEmail nameOpt vuid : Option String)
    (h : strFalsy rawEmail = true) :
    signInHandler opts env hdrs (Except.ok input)
        (VerifyResult.verified rawEmail nameOpt vuid) =
      (HRes.err 400 "Verifier must return user.email" Option.none Option.none, []) := by
  simp [signInHandler, h]

/-- Closed instantiation of the amended C3 at the empty-string email. -/
theorem C3_falsy_email_400_witness :
    strFalsy (Option.some "") = true
    ∧ signInHandler optsBase envBase hdrsBase (Except.ok inputBase)
          (VerifyResult.verified (Option.some "") Option.none Option.none) =
        (HRes.err 400 "Verifier must return user.email" Option.none Option.none, []) :=
  ⟨rfl, C3_falsy_email_400 optsBase envBase hdrsBase inputBase
    (Option.some "") Option.none Option.none rfl⟩

/-! ## Inversion lemmas for the handler -/

/-- Every effect the retry loop emits is a delay or a user lookup. -/
theorem retryFetch_effects (env : StoreEnv) (email : String) :
    ∀ fuel k, ∀ e ∈ (retryFetch env email fuel k).2, (isDelayEff e || isUserLookupEff e) = true := by
  intro fuel
  induction fuel with
  | zero => intro k e he; simp [retryFetch] at he
  | succ n ih =>
    intro k e he
    unfold retryFetch at he
    cases hf : fetchUserByEmail env k with
    | some u =>
      rw [hf] at he
      simp only [List.mem_cons, List.mem_singleton] at he
      rcases he with rfl | rfl | h
      · rfl
      · rfl
      · simp at h
    | none =>
      rw [hf] at he
      simp only [List.cons_append, List.nil_append, List.mem_cons] at he
      rcases he with rfl | rfl | h
      · rfl
      · rfl
      · exact ih (k + 1) e h

/-- Session establishment succeeds exactly on a non-falsy `created.id`, and
then the response is 200 `{ok, userId}` with one appended `sessionCreate`
effect (carrying the computed expiry and `!remember`) and one `setCookie`. -/
theorem establishSession_ok_inv (opts : Opts) (env : StoreEnv) (hdrs : Headers)
    (input : InputData) (user : UserRecord) (effs : List Effect)
    (uid : String) (tr : List Effect)
    (h : establishSession opts env hdrs input user effs = (HRes.ok uid, tr)) :
    uid = user.id
    ∧ strFalsy env.createSession.id = false
    ∧ tr = effs ++ [Effect.sessionCreate user.id (!(input.rememberMe == Option.some true))
          (env.now + (opts.sessionExpiresIn.getD (60 * 60 * 24 * 7)) * 1000)
          (hdrs.xForwardedFor.or hdrs.cfConnectingIp) hdrs.userAgent opts.onSessionData,
        Effect.setCookie] := by
  cases hs : strFalsy env.createSession.id with
  | true => simp [establishSession, hs] at h
  | false =>
    simp [establishSession, hs] at h
    exact ⟨h.1.symm, rfl, h.2.symm⟩

/-- Under a falsy `created.id`, session establishment fails 500 with no
`setCookie` appended. -/
theorem establishSession_fail (opts : Opts) (env : StoreEnv) (hdrs : Headers)
    (input : InputData) (user : UserRecord) (effs : List Effect)
    (hs : strFalsy env.createSession.id = true) :
    establishSession opts env hdrs input user effs =
      (HRes.err 500 "FAILED_TO_CREATE_SESSION" Option.none Option.none,
        effs ++ [Effect.sessionCreate user.id (!(input.rememberMe == Option.some true))
          (env.now + (opts.sessionExpiresIn.getD (60 * 60 * 24 * 7)) * 1000)
          (hdrs.xForwardedFor.or hdrs.cfConnectingIp) hdrs.userAgent opts.onSessionData]) := by
  simp [establishSession, hs]

/-- A successful (200) handler run is exactly a successful session
establishment on some resolved user, and every effect before the
`sessionCreate`/`setCookie` pair is a lookup, create, or delay. -/
theorem handler_ok_inv (opts : Opts) (env : StoreEnv) (hdrs : Headers)
    (input : InputData) (verifyRes : VerifyResult) (uid : String) (tr : List Effect)
    (h : signInHandler opts env hdrs (Except.ok input) verifyRes = (HRes.ok uid, tr)) :
    ∃ user effs, establishSession opts env hdrs input user effs = (HRes.ok uid, tr)
      ∧ ∀ e ∈ effs, isSessionCreateEff e = false ∧ e ≠ Effect.setCookie := by
  cases verifyRes with
  | rejected r c => exact absurd h (by simp [signInHandler])
  | verified rawEmail nameOpt vuid =>
    simp only [signInHandler] at h
    split at h
    · exact absurd h (by simp)
    · split at h
      · refine ⟨_, _, h, ?_⟩
        intro e he
        simp only [List.mem_singleton] at he
        subst he
        exact ⟨rfl, by simp⟩
      · split at h
        · exact absurd h (by simp)
        · split at h
          · refine ⟨_, _, h, ?_⟩
            intro e he
            simp only [List.cons_append, List.nil_append, List.mem_cons,
              List.mem_singleton, List.not_mem_nil, or_false] at he
            rcases he with rfl | rfl
            · exact ⟨rfl, by simp⟩
            · exact ⟨rfl, by simp⟩
          · exact absurd h (by simp)
          · split at h
            · split at h
              · refine ⟨_, _, h, ?_⟩
                intro e he
                simp only [List.append_assoc, List.cons_append, List.nil_append,
                  List.mem_cons, List.mem_append] at he
                rcases he with rfl | rfl | hretry
                · exact ⟨rfl, by simp⟩
                · exact ⟨rfl, by simp⟩
                · have := retryFetch_effects _ _ _ _ _ hretry
                  cases e <;> simp_all [isDelayEff, isUserLookupEff, isSessionCreateEff]
              · exact absurd h (by simp)
            · exact absurd h (by simp)

/-- C5: on every successful request the `sessionCreate` call carries
`expiresAt = now + expiresInSeconds * 1000` with
`expiresInSeconds = options.sessionExpiresIn ?? 604800`, and the
`rememberMe` flag does not alter the computed expiry. -/
theorem C5_expiry_independent_of_rememberMe (opts : Opts) (env : StoreEnv)
    (hdrs : Headers) (input : InputData) (verifyRes : VerifyResult)
    (uid : String) (tr : List Effect)
    (h : signInHandler opts env hdrs (Except.ok input) verifyRes = (HRes.ok uid, tr)) :
    computeExpiresInSec opts input = opts.sessionExpiresIn.getD (60 * 60 * 24 * 7)
    ∧ (∀ b, computeExpiresInSec opts { input with rememberMe := b } =
        computeExpiresInSec opts input)
    ∧ ∃ dnr ip ua ex,
        Effect.sessionCreate uid dnr
          (env.now + (opts.sessionExpiresIn.getD (60 * 60 * 24 * 7)) * 1000) ip ua ex ∈ tr := by
  refine ⟨by simp [computeExpiresInSec], fun b => by simp [computeExpiresInSec], ?_⟩
  obtain ⟨user, effs, he, -⟩ := handler_ok_inv opts env hdrs input verifyRes uid tr h
  obtain ⟨huid, -, htr⟩ := establishSession_ok_inv opts env hdrs input user effs uid tr he
  subst huid
  subst htr
  exact ⟨_, _, _, _, List.mem_append_right _ (List.mem_cons_self _ _)⟩

/-- Closed instantiation of C5 on a fresh-email success. -/
theorem C5_expiry_independent_of_rememberMe_witness :
    computeExpiresInSec optsBase inputBase = optsBase.sessionExpiresIn.getD (60 * 60 * 24 * 7)
    ∧ (∀ b, computeExpiresInSec optsBase { inputBase with rememberMe := b } =
        computeExpiresInSec optsBase inputBase)
    ∧ ∃ dnr ip ua ex,
        Effect.sessionCreate "1" dnr
          (envBase.now + (optsBase.sessionExpiresIn.getD (60 * 60 * 24 * 7)) * 1000) ip ua ex ∈
          [Effect.userLookup "a@b.com", Effect.userCreate "a@b.com" "a" true,
           Effect.sessionCreate "1" true 604800000 Option.none Option.none Option.none,
           Effect.setCookie] :=
  C5_expiry_independent_of_rememberMe optsBase envBase hdrsBase inputBase
    (VerifyResult.verified (Option.some "a@b.com") Option.none Option.none) "1" _ (by rfl)

/-- C10: every successful request's `createSession` call passes
`dontRememberMe = !(input.rememberMe === true)` as its third argument, so
the flag is observable by the session store even though the expiry is not
affected. -/
theorem C10_dontRememberMe_arg (opts : Opts) (env : StoreEnv) (hdrs : Headers)
    (input : InputData) (verifyRes : VerifyResult) (uid : String) (tr : List Effect)
    (h : signInHandler opts env hdrs (Except.ok input) verifyRes = (HRes.ok uid, tr)) :
    (∀ u' dnr ea ip ua ex, Effect.sessionCreate u' dnr ea ip ua ex ∈ tr →
        dnr = !(input.rememberMe == Option.some true))
    ∧ ∃ ea ip ua ex,
        Effect.sessionCreate uid (!(input.rememberMe == Option.some true)) ea ip ua ex ∈ tr := by
  obtain ⟨user, effs, he, hside⟩ := handler_ok_inv opts env hdrs input verifyRes uid tr h
  obtain ⟨huid, -, htr⟩ := establishSession_ok_inv opts env hdrs input user effs uid tr he
  constructor
  · intro u' dnr ea ip ua ex hmem
    rw [htr] at hmem
    rcases List.mem_append.mp hmem with hin | hin
    · have := (hside _ hin).1
      simp [isSessionCreateEff] at this
    · simp only [List.mem_cons, List.mem_singleton, List.not_mem_nil, or_false] at hin
      rcases hin with heq | heq
      · simp only [Effect.sessionCreate.injEq] at heq
        exact heq.2.1
      · simp at heq
  · subst huid
    subst htr
    exact ⟨_, _, _, _, List.mem_append_right _ (List.mem_cons_self _ _)⟩

/-- Closed instantiation of C10 on a fresh-email success. -/
theorem C10_dontRememberMe_arg_witness :
    (∀ u' dnr ea ip ua ex, Effect.sessionCreate u' dnr ea ip ua ex ∈
        [Effect.userLookup "a@b.com", Effect.userCreate "a@b.com" "a" true,
         Effect.sessionCreate "1" true 604800000 Option.none Option.none Option.none,
         Effect.setCookie] →
      dnr = !(inputBase.rememberMe == Option.some true))
    ∧ ∃ ea ip ua ex,
        Effect.sessionCreate "1" (!(inputBase.rememberMe == Option.some true)) ea ip ua ex ∈
          [Effect.userLookup "a@b.com", Effect.userCreate "a@b.com" "a" true,
           Effect.sessionCreate "1" true 604800000 Option.none Option.none Option.none,
           Effect.setCookie] :=
  C10_dontRememberMe_arg optsBase envBase hdrsBase inputBase
    (VerifyResult.verified (Option.some "a@b.com") Option.none Option.none) "1" _ (by rfl)

/-- Every handler run either stops before session creation (trace free of
`sessionCreate`/`setCookie`) or ends in a session establishment whose
earlier effects are free of them. -/
theorem handler_branches (opts : Opts) (env : StoreEnv) (hdrs : Headers)
    (parsed : Except SchemaFail InputData) (verifyRes : VerifyResult)
    (res : HRes) (tr : List Effect)
    (h : signInHandler opts env hdrs parsed verifyRes = (res, tr)) :
    (∀ e ∈ tr, isSessionCreateEff e = false ∧ e ≠ Effect.setCookie)
    ∨ (∃ input user effs, parsed = Except.ok input
        ∧ establishSession opts env hdrs input user effs = (res, tr)
        ∧ ∀ e ∈ effs, isSessionCreateEff e = false ∧ e ≠ Effect.setCookie) := by
  cases parsed with
  | error e =>
    left
    simp only [signInHandler, Prod.mk.injEq] at h
    rw [← h.2]
    intro e he
    simp at he
  | ok input =>
    cases verifyRes with
    | rejected r c =>
      left
      simp only [signInHandler, Prod.mk.injEq] at h
      rw [← h.2]
      intro e he
      simp at he
    | verified rawEmail nameOpt vuid =>
      simp only [signInHandler] at h
      split at h
      · left
        injection h with h1 h2
        subst h2
        intro e he
        simp at he
      · split at h
        · exact Or.inr ⟨input, _, _, rfl, h, fun e he => by
            simp only [List.mem_singleton] at he
            subst he
            exact ⟨rfl, by simp⟩⟩
        · split at h
          · left
            injection h with h1 h2
            subst h2
            intro e he
            simp only [List.mem_singleton] at he
            subst he
            exact ⟨rfl, by simp⟩
          · split at h
            · exact Or.inr ⟨input, _, _, rfl, h, fun e he => by
                simp only [List.cons_append, List.nil_append, List.mem_cons,
                  List.mem_singleton, List.not_mem_nil, or_false] at he
                rcases he with rfl | rfl
                · exact ⟨rfl, by simp⟩
                · exact ⟨rfl, by simp⟩⟩
            · left
              injection h with h1 h2
              subst h2
              intro e he
              simp only [List.cons_append, List.nil_append, List.mem_cons,
                List.mem_singleton, List.not_mem_nil, or_false] at he
              rcases he with rfl | rfl
              · exact ⟨rfl, by simp⟩
              · exact ⟨rfl, by simp⟩
            · split at h
              · split at h
                · exact Or.inr ⟨input, _, _, rfl, h, fun e he => by
                    simp only [List.append_assoc, List.cons_append, List.nil_append,
                      List.mem_cons, List.mem_append] at he
                    rcases he with rfl | rfl | hretry
                    · exact ⟨rfl, by simp⟩
                    · exact ⟨rfl, by simp⟩
                    · have := retryFetch_effects _ _ _ _ _ hretry
                      cases e <;> simp_all [isDelayEff, isUserLookupEff, isSessionCreateEff]⟩
                · left
                  injection h with h1 h2
                  subst h2
                  intro e he
                  simp only [List.append_assoc, List.cons_append, List.nil_append,
                    List.mem_cons, List.mem_append] at he
                  rcases he with rfl | rfl | hretry
                  · exact ⟨rfl, by simp⟩
                  · exact ⟨rfl, by simp⟩
                  · have := retryFetch_effects _ _ _ _ _ hretry
                    cases e <;> simp_all [isDelayEff, isUserLookupEff, isSessionCreateEff]
              · left
                injection h with h1 h2
                subst h2
                intro e he
                simp only [List.cons_append, List.nil_append, List.mem_cons,
                  List.mem_singleton, List.not_mem_nil, or_false] at he
                rcases he with rfl | rfl
                · exact ⟨rfl, by simp⟩
                · exact ⟨rfl, by simp⟩

/-- C7: when the session store's `create` resolves with a missing or empty
`id`, the handler never emits the session cookie, and if the session
creation was reached at all the response is the 500
`FAILED_TO_CREATE_SESSION` error. -/
theorem C7_falsy_session_id (opts : Opts) (env : StoreEnv) (hdrs : Headers)
    (parsed : Except SchemaFail InputData) (verifyRes : VerifyResult)
    (hid : strFalsy env.createSession.id = true) :
    Effect.setCookie ∉ (signInHandler opts env hdrs parsed verifyRes).2
    ∧ ((signInHandler opts env hdrs parsed verifyRes).2.any isSessionCreateEff = true →
        (signInHandler opts env hdrs parsed verifyRes).1 =
          HRes.err 500 "FAILED_TO_CREATE_SESSION" Option.none Option.none) := by
  have h : signInHandler opts env hdrs parsed verifyRes =
      ((signInHandler opts env hdrs parsed verifyRes).1,
       (signInHandler opts env hdrs parsed verifyRes).2) := rfl
  rcases handler_branches opts env hdrs parsed verifyRes _ _ h with
    hall | ⟨input, user, effs, hp, hest, hside⟩
  · constructor
    · intro hc
      exact (hall _ hc).2 rfl
    · intro hany
      rcases List.any_eq_true.mp hany with ⟨e, he, hce⟩
      exact absurd hce (by simp [(hall e he).1])
  · rw [establishSession_fail opts env hdrs input user effs hid] at hest
    injection hest with h1 h2
    constructor
    · intro hc
      rw [← h2] at hc
      rcases List.mem_append.mp hc with hin | hin
      · exact (hside _ hin).2 rfl
      · simp at hin
    · intro _
      exact h1.symm

theorem C7_falsy_session_id_witness :
    strFalsy envBadSession.createSession.id = true
    ∧ (Effect.setCookie ∉ (signInHandler optsBase envBadSession hdrsBase (Except.ok inputBase)
          (VerifyResult.verified (Option.some "a@b.com") Option.none Option.none)).2
      ∧ ((signInHandler optsBase envBadSession hdrsBase (Except.ok inputBase)
            (VerifyResult.verified (Option.some "a@b.com") Option.none Option.none)).2.any
              isSessionCreateEff = true →
          (signInHandler optsBase envBadSession hdrsBase (Except.ok inputBase)
            (VerifyResult.verified (Option.some "a@b.com") Option.none Option.none)).1 =
            HRes.err 500 "FAILED_TO_CREATE_SESSION" Option.none Option.none)) :=
  ⟨rfl, C7_falsy_session_id optsBase envBadSession hdrsBase (Except.ok inputBase)
    (VerifyResult.verified (Option.some "a@b.com") Option.none Option.none) rfl⟩

/-- C1: on a schema-valid body, a `Verified` result with a non-falsy email,
no existing user, auto-provisioning enabled, and stores that succeed, the
handler answers 200 `{ok: true, userId}`, creates exactly one user and
exactly one session, sets the session cookie, and the (part_007) session
cookie carries `Max-Age = options.sessionExpiresIn ?? 604800`. -/
theorem C1_auto_provision_success (opts : Opts) (env : StoreEnv) (hdrs : Headers)
    (input : InputData) (em : String) (nameOpt vuid : Option String) (user : UserRecord)
    (hemail : strFalsy (Option.some em) = false)
    (h0 : fetchUserByEmail env 0 = Option.none)
    (hauto : opts.autoSignUp.getD true = true)
    (hcreate : env.createUser = Except.ok (Option.some user))
    (hsid : strFalsy env.createSession.id = false) :
    statusOf (signInHandler opts env hdrs (Except.ok input)
        (VerifyResult.verified (Option.some em) nameOpt vuid)).1 = 200
    ∧ (signInHandler opts env hdrs (Except.ok input)
        (VerifyResult.verified (Option.some em) nameOpt vuid)).1 = HRes.ok user.id
    ∧ ((signInHandler opts env hdrs (Except.ok input)
        (VerifyResult.verified (Option.some em) nameOpt vuid)).2.filter
          isUserCreateEff).length = 1
    ∧ ((signInHandler opts env hdrs (Except.ok input)
        (VerifyResult.verified (Option.some em) nameOpt vuid)).2.filter
          isSessionCreateEff).length = 1
    ∧ Effect.setCookie ∈ (signInHandler opts env hdrs (Except.ok input)
        (VerifyResult.verified (Option.some em) nameOpt vuid)).2
    ∧ ∀ (cfg : CookieCfg) (d : JSDate),
        ("Max-Age=" ++ toString (opts.sessionExpiresIn.getD (60 * 60 * 24 * 7))) ∈
          cookieAttrParts (sessionCookieAttrs cfg (computeExpiresInSec opts input) d) := by
  have hres : signInHandler opts env hdrs (Except.ok input)
      (VerifyResult.verified (Option.some em) nameOpt vuid) =
      (HRes.ok user.id,
        [Effect.userLookup (jsToLower (jsTrim em)),
         Effect.userCreate (jsToLower (jsTrim em))
           (userCreateName nameOpt (jsToLower (jsTrim em))) true,
         Effect.sessionCreate user.id (!(input.rememberMe == Option.some true))
           (env.now + (opts.sessionExpiresIn.getD (60 * 60 * 24 * 7)) * 1000)
           (hdrs.xForwardedFor.or hdrs.cfConnectingIp) hdrs.userAgent opts.onSessionData,
         Effect.setCookie]) := by
    simp [signInHandler, hemail, h0, hauto, hcreate, establishSession, hsid]
  rw [hres]
  refine ⟨rfl, rfl, by simp [isUserCreateEff, List.filter],
    by simp [isSessionCreateEff, List.filter], by simp, ?_⟩
  intro cfg d
  simp [cookieAttrParts, sessionCookieAttrs, computeExpiresInSec]

/-- Closed instantiation of C1 on the base fixtures. -/
theorem C1_auto_provision_success_witness :
    statusOf (signInHandler optsBase envBase hdrsBase (Except.ok inputBase)
        (VerifyResult.verified (Option.some "a@b.com") Option.none Option.none)).1 = 200
    ∧ (signInHandler optsBase envBase hdrsBase (Except.ok inputBase)
        (VerifyResult.verified (Option.some "a@b.com") Option.none Option.none)).1 =
        HRes.ok userBase.id
    ∧ ((signInHandler optsBase envBase hdrsBase (Except.ok inputBase)
        (VerifyResult.verified (Option.some "a@b.com") Option.none Option.none)).2.filter
          isUserCreateEff).length = 1
    ∧ ((signInHandler optsBase envBase hdrsBase (Except.ok inputBase)
        (VerifyResult.verified (Option.some "a@b.com") Option.none Option.none)).2.filter
          isSessionCreateEff).length = 1
    ∧ Effect.setCookie ∈ (signInHandler optsBase envBase hdrsBase (Except.ok inputBase)
        (VerifyResult.verified (Option.some "a@b.com") Option.none Option.none)).2
    ∧ ∀ (cfg : CookieCfg) (d : JSDate),
        ("Max-Age=" ++ toString (optsBase.sessionExpiresIn.getD (60 * 60 * 24 * 7))) ∈
          cookieAttrParts (sessionCookieAttrs cfg (computeExpiresInSec optsBase inputBase) d) :=
  C1_auto_provision_success optsBase envBase hdrsBase inputBase "a@b.com"
    Option.none Option.none userBase rfl rfl rfl rfl rfl

/-- C2: when `createUser` throws, a uniqueness violation triggers the retry
loop — up to 3 refetches, each preceded by a fixed 50ms delay, stopping
early once a user is found (then proceeding to the 200 success) and failing
500 `FAILED_TO_CREATE_USER` when all three find none — while any other
creation error fails 500 immediately with no delay and no refetch. -/
theorem C2_unique_violation_retry (opts : Opts) (env : StoreEnv) (hdrs : Headers)
    (input : InputData) (em : String) (nameOpt vuid : Option String) (e2 : JSError)
    (hemail : strFalsy (Option.some em) = false)
    (h0 : fetchUserByEmail env 0 = Option.none)
    (hauto : opts.autoSignUp.getD true = true)
    (hcreate : env.createUser = Except.error e2) :
    (isUniqueViolation e2 = false →
      signInHandler opts env hdrs (Except.ok input)
          (VerifyResult.verified (Option.some em) nameOpt vuid) =
        (HRes.err 500 "FAILED_TO_CREATE_USER" Option.none Option.none,
          [Effect.userLookup (jsToLower (jsTrim em)),
           Effect.userCreate (jsToLower (jsTrim em))
             (userCreateName nameOpt (jsToLower (jsTrim em))) true]))
    ∧ (isUniqueViolation e2 = true →
        fetchUserByEmail env 1 = Option.none →
        fetchUserByEmail env 2 = Option.none →
        fetchUserByEmail env 3 = Option.none →
        signInHandler opts env hdrs (Except.ok input)
            (VerifyResult.verified (Option.some em) nameOpt vuid) =
          (HRes.err 500 "FAILED_TO_CREATE_USER" Option.none Option.none,
            [Effect.userLookup (jsToLower (jsTrim em)),
             Effect.userCreate (jsToLower (jsTrim em))
               (userCreateName nameOpt (jsToLower (jsTrim em))) true,
             Effect.delayMs 50, Effect.userLookup (jsToLower (jsTrim em)),
             Effect.delayMs 50, Effect.userLookup (jsToLower (jsTrim em)),
             Effect.delayMs 50, Effect.userLookup (jsToLower (jsTrim em))]))
    ∧ (∀ u : UserRecord, isUniqueViolation e2 = true →
        fetchUserByEmail env 1 = Option.none →
        fetchUserByEmail env 2 = Option.some u →
        strFalsy env.createSession.id = false →
        signInHandler opts env hdrs (Except.ok input)
            (VerifyResult.verified (Option.some em) nameOpt vuid) =
          (HRes.ok u.id,
            [Effect.userLookup (jsToLower (jsTrim em)),
             Effect.userCreate (jsToLower (jsTrim em))
               (userCreateName nameOpt (jsToLower (jsTrim em))) true,
             Effect.delayMs 50, Effect.userLookup (jsToLower (jsTrim em)),
             Effect.delayMs 50, Effect.userLookup (jsToLower (jsTrim em)),
             Effect.sessionCreate u.id (!(input.rememberMe == Option.some true))
               (env.now + (opts.sessionExpiresIn.getD (60 * 60 * 24 * 7)) * 1000)
               (hdrs.xForwardedFor.or hdrs.cfConnectingIp) hdrs.userAgent opts.onSessionData,
             Effect.setCookie])) := by
  refine ⟨?_, ?_, ?_⟩
  · intro hnu
    simp [signInHandler, hemail, h0, hauto, hcreate, hnu]
  · intro hu h1 h2 h3
    simp [signInHandler, hemail, h0, hauto, hcreate, hu, retryFetch, h1, h2, h3]
  · intro u hu h1 h2 hsid
    simp [signInHandler, hemail, h0, hauto, hcreate, hu, retryFetch, h1, h2,
      establishSession, hsid]

/-- Closed instantiation of C2: an unrelated creation error fails with no
retry; a duplicate-key error with no concurrent winner exhausts 3 delayed
retries and fails; a duplicate-key error whose winner appears at the second
refetch stops early and signs in with 200. -/
theorem C2_unique_violation_retry_witness :
    signInHandler optsBase envCreateFail hdrsBase (Except.ok inputBase)
        (VerifyResult.verified (Option.some "a@b.com") Option.none Option.none) =
      (HRes.err 500 "FAILED_TO_CREATE_USER" Option.none Option.none,
        [Effect.userLookup "a@b.com", Effect.userCreate "a@b.com" "a" true])
    ∧ signInHandler optsBase envDupRaceLost hdrsBase (Except.ok inputBase)
        (VerifyResult.verified (Option.some "a@b.com") Option.none Option.none) =
      (HRes.err 500 "FAILED_TO_CREATE_USER" Option.none Option.none,
        [Effect.userLookup "a@b.com", Effect.userCreate "a@b.com" "a" true,
         Effect.delayMs 50, Effect.userLookup "a@b.com",
         Effect.delayMs 50, Effect.userLookup "a@b.com",
         Effect.delayMs 50, Effect.userLookup "a@b.com"])
    ∧ signInHandler optsBase envDupRaceFound hdrsBase (Except.ok inputBase)
        (VerifyResult.verified (Option.some "a@b.com") Option.none Option.none) =
      (HRes.ok "1",
        [Effect.userLookup "a@b.com", Effect.userCreate "a@b.com" "a" true,
         Effect.delayMs 50, Effect.userLookup "a@b.com",
         Effect.delayMs 50, Effect.userLookup "a@b.com",
         Effect.sessionCreate "1" true 604800000 Option.none Option.none Option.none,
         Effect.setCookie]) :=
  ⟨(C2_unique_violation_retry optsBase envCreateFail hdrsBase inputBase "a@b.com"
      Option.none Option.none errOther rfl rfl rfl rfl).1 rfl,
   (C2_unique_violation_retry optsBase envDupRaceLost hdrsBase inputBase "a@b.com"
      Option.none Option.none errUnique rfl rfl rfl rfl).2.1 rfl rfl rfl rfl,
   (C2_unique_violation_retry optsBase envDupRaceFound hdrsBase inputBase "a@b.com"
      Option.none Option.none errUnique rfl rfl rfl rfl).2.2 userBase rfl rfl rfl rfl⟩
